import Mathlib

/-!
Verification development for the "smarty" browser extension.

The TypeScript sources are shallowly embedded: the DOM is abstracted as a
selector-indexed text lookup, `chrome.storage.local` as a record of the keys
the code touches, wall-clock time and generated ids/tokens as explicit
parameters, and the SHA-256 digest as an abstract `digest : String → String`
parameter (the code only ever compares digests of equal/unequal inputs).
-/

namespace Smarty

/-! ## JavaScript string primitives -/

/-- ASCII whitespace, the fragment of the JS `\s` class exercised here. -/
def isWsChar (c : Char) : Bool :=
  c = ' ' || c = '\t' || c = '\n' || c = '\r' || c = '\x0b' || c = '\x0c'

/-- JS `String.prototype.toLowerCase` (ASCII letters, as `Char.toLower`). -/
def jsToLowerCase (s : String) : String :=
  String.mk (s.toList.map Char.toLower)

/-- JS `String.prototype.trim`: strip leading and trailing whitespace. -/
def jsTrim (s : String) : String :=
  String.mk (((s.toList.dropWhile isWsChar).reverse.dropWhile isWsChar).reverse)

/-- JS `String.prototype.slice(0, n)`. -/
def jsSlice (n : Nat) (s : String) : String :=
  String.mk (s.toList.take n)

/-- Whether the character list `needle` is a prefix of `hay`. -/
def isPrefixOfB : List Char → List Char → Bool
  | [], _ => true
  | _ :: _, [] => false
  | a :: as, b :: bs => a = b && isPrefixOfB as bs

/-- JS `String.prototype.includes` on the underlying character lists. -/
def containsSubList (needle : List Char) : List Char → Bool
  | [] => needle.isEmpty
  | b :: bs => isPrefixOfB needle (b :: bs) || containsSubList needle bs

/-- JS `hay.includes(needle)`. -/
def jsIncludes (hay needle : String) : Bool :=
  containsSubList needle.toList hay.toList

/-- Replace each maximal run of characters satisfying `p` by the single
character `r` (the effect of JS `replace(/p+/g, r)`). -/
def collapseRuns (p : Char → Bool) (r : Char) (s : String) : String :=
  String.mk ((s.toList.foldl
    (fun acc c =>
      if p c then (if acc.2 then acc else (acc.1 ++ [r], true))
      else (acc.1 ++ [c], false))
    (([] : List Char), false)).1)

/-- JS `[...new Set(xs)]`: keep the first occurrence of every element, in order. -/
def jsSetDedup : List String → List String
  | [] => []
  | x :: rest => x :: jsSetDedup (rest.filter (fun y => y ≠ x))
termination_by l => l.length
decreasing_by
  simp only [List.length_cons]
  exact Nat.lt_succ_of_le (List.length_filter_le _ _)

/-- JS `x || d` for an optional numeric field (`0` is falsy). -/
def jsOrDefault (x : Option Nat) (d : Nat) : Nat :=
  match x with
  | some n => if n = 0 then d else n
  | none => d

/-! ### Lemmas about the primitives -/

theorem charToLower_toNat_of_upper (c : Char) (h : 65 ≤ c.toNat ∧ c.toNat ≤ 90) :
    (Char.toLower c).toNat = c.toNat + 32 := by
  have hv : (c.toNat + 32).isValidChar := Or.inl (by omega)
  simp only [Char.toLower, ge_iff_le, if_pos h]
  rw [Char.ofNat, dif_pos hv]
  rfl

theorem charToLower_of_not_upper (c : Char) (h : ¬(65 ≤ c.toNat ∧ c.toNat ≤ 90)) :
    Char.toLower c = c := by
  simp only [Char.toLower, ge_iff_le, if_neg h]

theorem charToLower_idem (c : Char) : Char.toLower (Char.toLower c) = Char.toLower c := by
  by_cases h : 65 ≤ c.toNat ∧ c.toNat ≤ 90
  · have h1 := charToLower_toNat_of_upper c h
    exact charToLower_of_not_upper _ (by omega)
  · rw [charToLower_of_not_upper c h]
    exact charToLower_of_not_upper c h

theorem jsToLowerCase_idem (s : String) :
    jsToLowerCase (jsToLowerCase s) = jsToLowerCase s := by
  simp [jsToLowerCase, List.map_map, Function.comp_def, charToLower_idem]

theorem jsSetDedup_count (e : String) :
    ∀ l : List String, (jsSetDedup l).count e = if e ∈ l then 1 else 0 := by
  intro l
  induction l using jsSetDedup.induct with
  | case1 => simp [jsSetDedup]
  | case2 x rest ih =>
    rw [jsSetDedup]
    simp only [ne_eq, decide_not] at ih ⊢
    by_cases hex : e = x
    · subst hex
      have hnot : e ∉ rest.filter (fun y => !decide (y = e)) := by
        simp [List.mem_filter]
      rw [if_neg hnot] at ih
      simp [List.count_cons, ih]
    · have hmem : (e ∈ rest.filter (fun y => !decide (y = x))) ↔ e ∈ rest := by
        simp [List.mem_filter, hex]
      rw [if_congr hmem rfl rfl] at ih
      simp [List.count_cons, ih, hex]

theorem jsSetDedup_mem (e : String) (l : List String) :
    e ∈ jsSetDedup l ↔ e ∈ l := by
  have h := jsSetDedup_count e l
  by_cases hm : e ∈ l
  · rw [if_pos hm] at h
    simp only [hm, iff_true]
    exact List.count_pos_iff.mp (by omega)
  · rw [if_neg hm] at h
    simp only [hm, iff_false]
    exact List.count_eq_zero.mp h

/-! ## A small backtracking regex engine

The content script uses three fixed regular expressions built from character
classes, literals, `?`, `+`, `{n}` and `{n,}`.  A pattern is interpreted as a
function from a character list to the list of possible remainders after a
match, in backtracking priority order (greedy quantifiers try the longest
consumption first); the first remainder is the one JS commits to. -/

def RegCont := List Char → List (List Char)

/-- Match one literal character. -/
def reLit (c : Char) : RegCont :=
  fun s =>
    match s with
    | [] => []
    | b :: rest => if b = c then [rest] else []

/-- Match one character of a class. -/
def reCls (f : Char → Bool) : RegCont :=
  fun s =>
    match s with
    | [] => []
    | b :: rest => if f b then [rest] else []

/-- Sequencing; preserves priority order of alternatives. -/
def reSeq (p q : RegCont) : RegCont :=
  fun s => (p s).flatMap q

/-- Greedy `?`: try with the item present first. -/
def reOpt (p : RegCont) : RegCont :=
  fun s => p s ++ [s]

/-- Repetition `{n}` over a character class. -/
def reRepExact : Nat → (Char → Bool) → RegCont
  | 0, _ => fun s => [s]
  | n + 1, f => reSeq (reCls f) (reRepExact n f)

/-- Length of the maximal run of `f`-characters at the head of `s`. -/
def runLen (f : Char → Bool) (s : List Char) : Nat :=
  (s.takeWhile f).length

/-- Greedy `{n,}` over a character class: consume `k, k-1, …, n` characters
where `k` is the maximal run length. -/
def reAtLeast (n : Nat) (f : Char → Bool) : RegCont :=
  fun s =>
    let k := runLen f s
    if k < n then []
    else (List.range (k - n + 1)).map (fun i => s.drop (k - i))

/-- Greedy `+` over a character class. -/
def rePlus (f : Char → Bool) : RegCont := reAtLeast 1 f

/-- The length of the leftmost match of `p` at the head of `s`, if any. -/
def reMatchAt (p : RegCont) (s : List Char) : Option Nat :=
  (p s).head?.map (fun rem => s.length - rem.length)

/-- JS `String.prototype.match(/p/g)`: all matches, scanning left to right and
resuming after the end of each match. -/
def jsMatchAllAux (p : RegCont) : Nat → List Char → List String
  | 0, _ => []
  | _ + 1, [] => []
  | fuel + 1, s@(_ :: rest) =>
    match reMatchAt p s with
    | some (n + 1) => String.mk (s.take (n + 1)) :: jsMatchAllAux p fuel (s.drop (n + 1))
    | some 0 => jsMatchAllAux p fuel rest
    | none => jsMatchAllAux p fuel rest

def jsMatchAll (p : RegCont) (s : String) : List String :=
  jsMatchAllAux p (s.toList.length + 1) s.toList

/-! ### The three patterns of the content script -/

/-- Class `[a-zA-Z0-9._%+-]` of the lead email regex. -/
def emailLocalChar (c : Char) : Bool :=
  c.isAlpha || c.isDigit || c = '.' || c = '_' || c = '%' || c = '+' || c = '-'

/-- Class `[a-zA-Z0-9.-]` of the lead email regex. -/
def emailDomainChar (c : Char) : Bool :=
  c.isAlpha || c.isDigit || c = '.' || c = '-'

/-- The regex `/[a-zA-Z0-9._%+-]+@[a-zA-Z0-9.-]+\.[a-zA-Z]{2,}/g` from `extractLeads`. -/
def emailLeadPattern : RegCont :=
  reSeq (rePlus emailLocalChar)
    (reSeq (reLit '@')
      (reSeq (rePlus emailDomainChar)
        (reSeq (reLit '.') (reAtLeast 2 Char.isAlpha))))

/-- Class `[-. ]` of the lead phone regex. -/
def phoneSepChar (c : Char) : Bool :=
  c = '-' || c = '.' || c = ' '

/-- The regex `/(?:\+?1[-. ]?)?\(?([0-9]{3})\)?[-. ]?([0-9]{3})[-. ]?([0-9]{4})/g`
from `extractLeads`. -/
def phoneLeadPattern : RegCont :=
  reSeq (reOpt (reSeq (reOpt (reLit '+')) (reSeq (reLit '1') (reOpt (reCls phoneSepChar)))))
    (reSeq (reOpt (reLit '('))
      (reSeq (reRepExact 3 Char.isDigit)
        (reSeq (reOpt (reLit ')'))
          (reSeq (reOpt (reCls phoneSepChar))
            (reSeq (reRepExact 3 Char.isDigit)
              (reSeq (reOpt (reCls phoneSepChar)) (reRepExact 4 Char.isDigit)))))))

/-- Class `[\d,.]` of the price regex in `monitorPrice`. -/
def priceNumChar (c : Char) : Bool :=
  c.isDigit || c = ',' || c = '.'

/-- The regex `/[\d,.]+(\d{2})/g` from `monitorPrice`. -/
def priceNumPattern : RegCont :=
  reSeq (rePlus priceNumChar) (reRepExact 2 Char.isDigit)

/-! ## `parseFloat`

`monitorPrice` applies `parseFloat` to the first price-regex match with the
commas removed, hence to a non-empty string of digits and dots.  The model
covers leading whitespace, an optional sign and `digits[.digits]` /
`.digits`; the exponent and `Infinity` forms cannot occur on those inputs
and are elided.  `none` stands for `NaN`. -/

def digitsVal (l : List Char) : Nat :=
  l.foldl (fun acc c => acc * 10 + (c.toNat - 48)) 0

def parseFracPart (intPart : List Char) (rest : List Char) : Rat :=
  match rest with
  | '.' :: rest1 =>
    let frac := rest1.takeWhile Char.isDigit
    (digitsVal intPart : Rat) + (digitsVal frac : Rat) / ((10 : Rat) ^ frac.length)
  | _ => (digitsVal intPart : Rat)

def jsParseFloatAux (l : List Char) : Option Rat :=
  let intPart := l.takeWhile Char.isDigit
  if intPart ≠ [] then
    some (parseFracPart intPart (l.drop intPart.length))
  else
    match l with
    | '.' :: rest =>
      let frac := rest.takeWhile Char.isDigit
      if frac ≠ [] then
        some ((digitsVal frac : Rat) / ((10 : Rat) ^ frac.length))
      else none
    | _ => none

def jsParseFloat (s : String) : Option Rat :=
  match s.toList.dropWhile isWsChar with
  | '-' :: rest => (jsParseFloatAux rest).map (fun q => -q)
  | '+' :: rest => jsParseFloatAux rest
  | l => jsParseFloatAux l

/-- JS `str.replace(/,/g, '')`. -/
def stripCommas (s : String) : String :=
  String.mk (s.toList.filter (fun c => c ≠ ','))

/-! ## Page model

A loaded page, as far as the content script reads it: its URL, title, the
full body text, a selector-indexed lookup (`query sel` is the `textContent`
of the first element matching `sel`, `none` when no element matches, where a
`null` `textContent` is already coerced to `""` as the code does), and the
two `querySelectorAll(...).length > 0` facts `detectPageType` consults. -/

structure Page where
  url : String
  title : String
  bodyText : String
  query : String → Option String
  hasArticleContainer : Bool
  hasFormElement : Bool

/-! ## `extractPageContent` (content script) -/

/-- The ordered "main content" selector list of `extractPageContent`. -/
def contentSelectors : List String :=
  ["main", "article", "[role=\"main\"]", ".content", "#content",
   ".post-content", ".entry-content", ".article-content"]

/-- Text of the first matching content container, `""` when none matches. -/
def pickedRawContent (pg : Page) : String :=
  (contentSelectors.findSome? pg.query).getD ""

/-- The cleanup pipeline of `extractPageContent`: `replace(/\s+/g, ' ')`,
`replace(/\n+/g, '\n')` (a no-op after the first replace), `trim()`,
`slice(0, 10000)`. -/
def normalizedTruncated (s : String) : String :=
  jsSlice 10000 (jsTrim (collapseRuns (fun ch => ch = '\n') '\n' (collapseRuns isWsChar ' ' s)))

/-- The content of `extractPageContent`: first container text, with
body-text fallback when its trim is empty, then the cleanup pipeline. -/
def extractedContentString (pg : Page) : String :=
  normalizedTruncated
    (if jsTrim (pickedRawContent pg) = "" then pg.bodyText else pickedRawContent pg)

/-- The `data` payload of a successful `extractPageContent` (its `try` block
cannot throw in this model, so the envelope is always `success:true`). -/
structure ExtractedContent where
  title : String
  url : String
  content : String
  wordCount : Nat
  extractedAt : Nat

def extractPageContent (pg : Page) (now : Nat) : ExtractedContent :=
  let content := extractedContentString pg
  { title := pg.title
    url := pg.url
    content := content
    wordCount := (content.splitOn " ").length
    extractedAt := now }

/-! ## `extractLeads` (content script) -/

/-- One entry of the `leads` array built by `extractLeads`. -/
structure LeadRec where
  email : Option String
  phone : Option String
  source : String
  verified : Bool
  extractedAt : Nat

/-- The lead record pushed for an email match. -/
def mkEmailLead (url : String) (now : Nat) (e : String) : LeadRec :=
  { email := some e, phone := none, source := url, verified := false,
    extractedAt := now }

/-- The lead record pushed for a phone match. -/
def mkPhoneLead (url : String) (now : Nat) (ph : String) : LeadRec :=
  { email := none, phone := some ph, source := url, verified := false,
    extractedAt := now }

/-- The `leads` array of `extractLeads`: one record per unique email-regex
match of the body text, then one per unique phone-regex match. -/
def extractLeads (pg : Page) (now : Nat) : List LeadRec :=
  (jsSetDedup (jsMatchAll emailLeadPattern pg.bodyText)).map (mkEmailLead pg.url now)
  ++ (jsSetDedup (jsMatchAll phoneLeadPattern pg.bodyText)).map (mkPhoneLead pg.url now)

/-! ## `monitorPrice` (content script) -/

/-- Result of `monitorPrice`; `ok p` is the `success:true` envelope whose
`currentPrice` is `p` (`none` standing for `NaN`), `err e` the
`success:false` envelope produced from the thrown error.  The metadata
fields (`url`, `productName`, `currency`, `selector`, `lastChecked`,
`priceHistory`) only echo the environment and are elided. -/
inductive PriceResult where
  | ok (currentPrice : Option Rat)
  | err (error : String)
deriving DecidableEq

/-- The fixed price selector list of `monitorPrice`. -/
def basePriceSelectors : List String :=
  [".price", ".price-current", ".current-price", "[data-price]",
   ".product-price", ".sale-price", ".offer-price"]

/-- The list `[selector, …fixed].filter(Boolean)`: a caller-supplied selector comes
first; `undefined` and `""` are falsy and dropped. -/
def monitorSelectors (sel : Option String) : List String :=
  (match sel with
   | some s => if s = "" then [] else [s]
   | none => []) ++ basePriceSelectors

/-- The `textContent` of the element found by the first matching selector. -/
def firstPriceText (pg : Page) (sel : Option String) : Option String :=
  (monitorSelectors sel).findSome? pg.query

def monitorPrice (pg : Page) (sel : Option String) : PriceResult :=
  match firstPriceText pg sel with
  | none => .err "No price found on this page"
  | some t =>
    if t = "" then .err "No price found on this page"
    else
      match (jsMatchAll priceNumPattern t).head? with
      | none => .ok (some 0)
      | some m => .ok (jsParseFloat (stripCommas m))

/-! ## `detectPageType` (content script classifier)

`detectPageType` reads only the lowercased URL, title and body text and the
two container-presence booleans, so it is a function of the `Page` record by
construction (the purity half of the claim). -/

/-- First rule: social-media domain match on the lowercased URL. -/
def socialUrlMatch (pg : Page) : Bool :=
  let url := jsToLowerCase pg.url
  jsIncludes url "linkedin.com" || jsIncludes url "twitter.com" ||
    jsIncludes url "facebook.com"

/-- Second rule: ecommerce domain match on the URL or keyword in body text. -/
def ecommerceMatch (pg : Page) : Bool :=
  jsIncludes (jsToLowerCase pg.url) "amazon.com" ||
    jsIncludes (jsToLowerCase pg.url) "ebay.com" ||
    jsIncludes (jsToLowerCase pg.bodyText) "add to cart"

/-- Third rule: job-board domain match on the URL or keyword in the title. -/
def jobBoardMatch (pg : Page) : Bool :=
  jsIncludes (jsToLowerCase pg.url) "indeed.com" ||
    jsIncludes (jsToLowerCase pg.url) "linkedin.com/jobs" ||
    jsIncludes (jsToLowerCase pg.title) "job"

def detectPageType (pg : Page) : String :=
  if socialUrlMatch pg then "social-media"
  else if ecommerceMatch pg then "ecommerce"
  else if jobBoardMatch pg then "job-board"
  else if pg.hasArticleContainer then "article"
  else if pg.hasFormElement then "form-page"
  else "general"

/-! ## Session store (`ChromeStorageService`)

`chrome.storage.local` is modelled by the record fields the service touches;
`this.currentUser` is `memUser`.  `Date.now()`, generated ids and tokens are
explicit parameters, and the SHA-256 hex digest is an abstract
`digest : String → String`. -/

structure UserR where
  id : String
  email : String
  name : String
  plan : String
  createdAt : Nat
  updatedAt : Nat
deriving DecidableEq

structure CredR where
  userId : String
  email : String
  passwordHash : String
  createdAt : Nat
deriving DecidableEq

structure ContentSummaryR where
  id : String
  url : String
  title : String
  summary : String
  keyPoints : List String
  createdAt : Nat
deriving DecidableEq

structure StoredLead where
  id : String
  email : Option String
  phone : Option String
  source : String
  verified : Bool
  extractedAt : Nat
deriving DecidableEq

structure PriceMonitorR where
  id : String
  url : String
  productName : String
  currentPrice : Rat
  alertsEnabled : Bool
deriving DecidableEq

structure ActivityR where
  id : String
  userId : String
  action : String
  details : List (String × String)
  timestamp : Nat
deriving DecidableEq

structure StoreState where
  users : List UserR
  userCredentials : List CredR
  contentSummaries : List ContentSummaryR
  leads : List StoredLead
  priceMonitors : List PriceMonitorR
  userActivities : List ActivityR
  currentUserStored : Option UserR
  authToken : Option String
  tokenExpiry : Option Nat
  memUser : Option UserR
deriving DecidableEq

/-- Method `ChromeStorageService.isValidEmail`, the regex
`/^[^\s@]+@[^\s@]+\.[^\s@]+$/`: one `@`, a non-empty whitespace-free local
part, and a whitespace-free domain containing a dot that has at least one
character on each side. -/
def isValidEmail (s : String) : Bool :=
  match s.toList.splitOn '@' with
  | [l, d] =>
    !l.isEmpty && l.all (fun c => !isWsChar c) &&
    !d.isEmpty && d.all (fun c => !isWsChar c) &&
    ((d.drop 1).dropLast.contains '.')
  | _ => false

/-- Method `ChromeStorageService.isValidPassword`. -/
def isValidPassword (p : String) : Bool :=
  6 ≤ p.length

/-- Method `ChromeStorageService.hashPassword`: the hex SHA-256 digest of the
salted password, with the digest abstract. -/
def hashPassword (digest : String → String) (password : String) : String :=
  digest (password ++ "smarty_salt")

/-- The 7-day token lifetime added to `Date.now()`. -/
def tokenLifetimeMs : Nat := 7 * 24 * 60 * 60 * 1000

/-- The `{ user, error, token }` result of `signUp` / `signIn`. -/
structure AuthResult where
  user : Option UserR
  error : Option String
  token : Option String
deriving DecidableEq

def authFail (e : String) : AuthResult :=
  { user := none, error := some e, token := none }

def signUp (digest : String → String) (st : StoreState)
    (email password name : String) (now : Nat) (newId token : String) :
    AuthResult × StoreState :=
  if email = "" || password = "" || name = "" then
    (authFail "All fields are required", st)
  else if !isValidEmail email then
    (authFail "Please enter a valid email address", st)
  else if !isValidPassword password then
    (authFail "Password must be at least 6 characters long", st)
  else if (jsTrim name).length < 2 then
    (authFail "Name must be at least 2 characters long", st)
  else
    match st.users.find? (fun u => jsToLowerCase u.email == jsToLowerCase email) with
    | some _ => (authFail "An account with this email already exists", st)
    | none =>
      let newUser : UserR :=
        { id := newId, email := jsToLowerCase email, name := jsTrim name,
          plan := "free", createdAt := now, updatedAt := now }
      let cred : CredR :=
        { userId := newId, email := jsToLowerCase email,
          passwordHash := hashPassword digest password, createdAt := now }
      ({ user := some newUser, error := none, token := some token },
       { st with
          users := st.users ++ [newUser]
          userCredentials := st.userCredentials ++ [cred]
          memUser := some newUser
          currentUserStored := some newUser
          authToken := some token
          tokenExpiry := some (now + tokenLifetimeMs) })

def signIn (digest : String → String) (st : StoreState)
    (email password : String) (now : Nat) (token : String) :
    AuthResult × StoreState :=
  if email = "" || password = "" then
    (authFail "Email and password are required", st)
  else if !isValidEmail email then
    (authFail "Please enter a valid email address", st)
  else
    match st.users.find? (fun u => jsToLowerCase u.email == jsToLowerCase email) with
    | none => (authFail "Invalid email or password", st)
    | some u =>
      match st.userCredentials.find? (fun c => c.userId == u.id) with
      | none => (authFail "Account not found. Please sign up first.", st)
      | some cred =>
        if hashPassword digest password ≠ cred.passwordHash then
          (authFail "Invalid email or password", st)
        else
          let u1 := { u with updatedAt := now }
          let users1 :=
            match st.users.findIdx? (fun v => v.id == u.id) with
            | some i => st.users.set i u1
            | none => st.users
          ({ user := some u1, error := none, token := some token },
           { st with
              users := users1
              memUser := some u1
              currentUserStored := some u1
              authToken := some token
              tokenExpiry := some (now + tokenLifetimeMs) })

/-- Method `signOut`: clear the in-memory user and remove the three session keys
(the `chrome.storage.local.remove` cannot throw in this model, so the
returned `error` is always `null` and is elided). -/
def signOut (st : StoreState) : StoreState :=
  { st with
     memUser := none
     currentUserStored := none
     authToken := none
     tokenExpiry := none }

/-- Method `getCurrentUser`: memoized in-process; on a cold read, reload the stored
session if its three keys are truthy, sign out when `Date.now()` is past the
expiry. -/
def getCurrentUser (st : StoreState) (now : Nat) : Option UserR × StoreState :=
  match st.memUser with
  | some u => (some u, st)
  | none =>
    match st.currentUserStored, st.authToken, st.tokenExpiry with
    | some u, some tok, some exp =>
      if tok ≠ "" && exp ≠ 0 then
        if exp < now then (none, signOut st)
        else (some u, { st with memUser := some u })
      else (none, st)
    | _, _, _ => (none, st)

/-- Method `logUserActivity`: silently a no-op without a session; otherwise unshift
a new record and `splice(100)` when more than 100 entries accumulate. -/
def logUserActivity (st : StoreState) (action : String)
    (details : List (String × String)) (now : Nat) (newId : String) : StoreState :=
  match st.memUser with
  | none => st
  | some u =>
    let a : ActivityR :=
      { id := newId, userId := u.id, action := action, details := details,
        timestamp := now }
    let l := a :: st.userActivities
    { st with userActivities := if 100 < l.length then l.take 100 else l }

/-- Method `saveContentSummary`: throws `User not authenticated` without a
session, otherwise unshifts the summary with a fresh id and timestamp. -/
def saveContentSummary (st : StoreState) (s : ContentSummaryR) (now : Nat)
    (newId : String) : Except String StoreState :=
  match st.memUser with
  | none => .error "User not authenticated"
  | some _ =>
    .ok { st with contentSummaries := { s with id := newId, createdAt := now } :: st.contentSummaries }

/-- Method `saveLeads` of the storage service. -/
def saveLeadsStore (st : StoreState) (ls : List StoredLead) (now : Nat)
    (genId : Nat → String) : Except String StoreState :=
  match st.memUser with
  | none => .error "User not authenticated"
  | some _ =>
    let newLeads := ls.mapIdx (fun i l => { l with id := genId i, extractedAt := now })
    .ok { st with leads := newLeads ++ st.leads }

/-- Method `savePriceMonitor` of the storage service. -/
def savePriceMonitorStore (st : StoreState) (m : PriceMonitorR)
    (newId : String) : Except String StoreState :=
  match st.memUser with
  | none => .error "User not authenticated"
  | some _ => .ok { st with priceMonitors := { m with id := newId } :: st.priceMonitors }

/-- Method `getUserSummaryHistory`: empty without a session. -/
def getUserSummaryHistory (st : StoreState) (limit : Nat) : List ContentSummaryR :=
  match st.memUser with
  | none => []
  | some _ => st.contentSummaries.take limit

/-- Method `getLeads`: empty without a session. -/
def getLeadsStore (st : StoreState) (limit : Nat) : List StoredLead :=
  match st.memUser with
  | none => []
  | some _ => st.leads.take limit

/-- Method `getPriceMonitors`: empty without a session. -/
def getPriceMonitorsStore (st : StoreState) : List PriceMonitorR :=
  match st.memUser with
  | none => []
  | some _ => st.priceMonitors

/-- Method `getUserHistory`: empty without a session, else the 20 newest records. -/
def getUserHistoryStore (st : StoreState) : List ActivityR :=
  match st.memUser with
  | none => []
  | some _ => st.userActivities.take 20

/-! ## Action dispatcher (`background.ts` `handleMessage`)

Only the store-backed actions the claims quantify over are modelled; each
case mirrors the corresponding `switch` arm, with the `try/catch` converting
a store-layer throw into the `success:false` envelope. -/

inductive DispatchMsg where
  | saveSummary (s : ContentSummaryR)
  | saveLeadsMsg (ls : List StoredLead) (source : String)
  | savePriceMonitorMsg (m : PriceMonitorR)
  | logActivity (action : String) (details : List (String × String))
  | getSummaries (limit : Option Nat)
  | getLeadsMsg (limit : Option Nat)
  | getPriceMonitorsMsg
  | getUserHistoryMsg

inductive RespData where
  | summaries (l : List ContentSummaryR)
  | leadList (l : List StoredLead)
  | monitors (l : List PriceMonitorR)
  | activities (l : List ActivityR)
deriving DecidableEq

structure MessageResponse where
  success : Bool
  data : Option RespData
  error : Option String
deriving DecidableEq

def handleMessage (st : StoreState) (m : DispatchMsg) (now : Nat)
    (genId : Nat → String) : MessageResponse × StoreState :=
  match m with
  | .saveSummary s =>
    match saveContentSummary st s now (genId 0) with
    | .error e => ({ success := false, data := none, error := some e }, st)
    | .ok st1 =>
      let st2 := logUserActivity st1 "content_summarized"
        [("url", s.url), ("title", s.title)] now (genId 1)
      ({ success := true, data := none, error := none }, st2)
  | .saveLeadsMsg ls src =>
    match saveLeadsStore st ls now genId with
    | .error e => ({ success := false, data := none, error := some e }, st)
    | .ok st1 =>
      let st2 := logUserActivity st1 "leads_extracted"
        [("count", toString ls.length), ("source", src)] now (genId ls.length)
      ({ success := true, data := none, error := none }, st2)
  | .savePriceMonitorMsg mo =>
    match savePriceMonitorStore st mo (genId 0) with
    | .error e => ({ success := false, data := none, error := some e }, st)
    | .ok st1 =>
      let st2 := logUserActivity st1 "price_monitor_created"
        [("url", mo.url), ("productName", mo.productName)] now (genId 1)
      ({ success := true, data := none, error := none }, st2)
  | .logActivity a d =>
    ({ success := true, data := none, error := none },
     logUserActivity st a d now (genId 0))
  | .getSummaries lim =>
    ({ success := true,
       data := some (.summaries (getUserSummaryHistory st (jsOrDefault lim 20))),
       error := none }, st)
  | .getLeadsMsg lim =>
    ({ success := true,
       data := some (.leadList (getLeadsStore st (jsOrDefault lim 50))),
       error := none }, st)
  | .getPriceMonitorsMsg =>
    ({ success := true, data := some (.monitors (getPriceMonitorsStore st)),
       error := none }, st)
  | .getUserHistoryMsg =>
    ({ success := true, data := some (.activities (getUserHistoryStore st)),
       error := none }, st)

/-! ## Concrete fixtures used by witnesses and counterexamples -/

/-- A page whose only matching selector is `.price`, with text `t`. -/
def pageWithPrice (t : String) : Page :=
  { url := "https://shop.example/item"
    title := "Item"
    bodyText := ""
    query := fun s => if s = ".price" then some t else none
    hasArticleContainer := false
    hasFormElement := false }

def sampleUser : UserR :=
  { id := "u1", email := "a@b.com", name := "Ann", plan := "free",
    createdAt := 0, updatedAt := 0 }

def emptyStore : StoreState :=
  { users := [], userCredentials := [], contentSummaries := [], leads := [],
    priceMonitors := [], userActivities := [], currentUserStored := none,
    authToken := none, tokenExpiry := none, memUser := none }

/-- A warm service instance holding an expired persisted session. -/
def expiredWarmStore : StoreState :=
  { emptyStore with
     users := [sampleUser]
     currentUserStored := some sampleUser
     authToken := some "tok"
     tokenExpiry := some 5
     memUser := some sampleUser }

/-- The same expired persisted session on a cold service instance. -/
def expiredColdStore : StoreState :=
  { expiredWarmStore with memUser := none }

/-! ## C1 — `monitorPrice` failure behaviour -/

/-- C1 counterexample.  The claim says that when a selector matches but the
text holds no parseable number `monitorPrice` returns `success:false`, and
that it never returns a `NaN` price.  On a page whose `.price` text is
`"hello"` it returns `success:true` with price `0`, and on text `"..12"`
(regex match `"..12"`, whose `parseFloat` is `NaN`) it returns
`success:true` with a `NaN` price. -/
theorem monitorPrice_unparseable_counterexample :
    monitorPrice (pageWithPrice "hello") none = .ok (some 0) ∧
    monitorPrice (pageWithPrice "..12") none = .ok none := by
  exact ⟨rfl, rfl⟩

/-- C1 (amended): `monitorPrice` returns `success:false` — always with the
non-empty error `"No price found on this page"` — exactly when no selector
(caller-supplied or from the fixed list) finds an element, or the first
the text of the found element is empty; when a selector matches with non-empty text
in which the numeric regex finds no match, it instead returns `success:true`
with price `0`. -/
theorem monitorPrice_none_text (pg : Page) (sel : Option String)
    (hf : firstPriceText pg sel = none) :
    monitorPrice pg sel = .err "No price found on this page" := by
  unfold monitorPrice
  rw [hf]

theorem monitorPrice_some_text (pg : Page) (sel : Option String) (t : String)
    (hf : firstPriceText pg sel = some t) :
    monitorPrice pg sel =
      (if t = "" then PriceResult.err "No price found on this page"
       else
         match (jsMatchAll priceNumPattern t).head? with
         | none => PriceResult.ok (some 0)
         | some m => PriceResult.ok (jsParseFloat (stripCommas m))) := by
  unfold monitorPrice
  rw [hf]

theorem monitorPrice_failure_characterization (pg : Page) (sel : Option String) :
    (monitorPrice pg sel = .err "No price found on this page" ↔
      (firstPriceText pg sel = none ∨ firstPriceText pg sel = some "")) ∧
    (∀ t, firstPriceText pg sel = some t → t ≠ "" →
      jsMatchAll priceNumPattern t = [] → monitorPrice pg sel = .ok (some 0)) := by
  constructor
  · constructor
    · intro h
      cases hf : firstPriceText pg sel with
      | none => exact Or.inl rfl
      | some t =>
        by_cases ht : t = ""
        · subst ht
          exact Or.inr rfl
        · exfalso
          rw [monitorPrice_some_text pg sel t hf, if_neg ht] at h
          cases hm : (jsMatchAll priceNumPattern t).head? <;> rw [hm] at h <;> simp at h
    · intro h
      rcases h with h | h
      · exact monitorPrice_none_text pg sel h
      · rw [monitorPrice_some_text pg sel "" h]
        rfl
  · intro t hf ht hm
    rw [monitorPrice_some_text pg sel t hf, if_neg ht, hm]
    rfl

/-- C1 witness: the amended success case at a concrete page. -/
theorem monitorPrice_failure_characterization_witness :
    monitorPrice (pageWithPrice "hello") (some ".x") = .ok (some 0) :=
  (monitorPrice_failure_characterization (pageWithPrice "hello") (some ".x")).2
    "hello" rfl (by decide) rfl

/-! ## C2 — expired sessions on `getCurrentUser` -/

/-- C2 counterexample.  The claim says any `getCurrentUser` call treats a
stored session whose expiry is past as absent.  On a warm instance (the
in-memory user is set, e.g. by the constructor preload, which never checks
expiry) `getCurrentUser` returns the user even though the stored expiry (5)
is strictly before now (10), and clears nothing. -/
theorem getCurrentUser_memoized_counterexample :
    (getCurrentUser expiredWarmStore 10).1 = some sampleUser ∧
    (getCurrentUser expiredWarmStore 10).2 = expiredWarmStore := by
  exact ⟨rfl, rfl⟩

/-- C2 (amended): on a cold read (no in-memory user), a stored session whose
expiry is strictly past is treated as absent: `getCurrentUser` returns no
user, clears the persisted session state, and any repeated call returns no
user again.  A memoized in-memory user short-circuits the expiry check. -/
theorem getCurrentUser_expired_cold (st : StoreState) (u : UserR) (tok : String)
    (exp now : Nat) (hm : st.memUser = none) (hu : st.currentUserStored = some u)
    (ht : st.authToken = some tok) (ht2 : tok ≠ "")
    (he : st.tokenExpiry = some exp) (he2 : exp ≠ 0) (hlt : exp < now) :
    (getCurrentUser st now).1 = none ∧
    (getCurrentUser st now).2 = signOut st ∧
    (∀ now2, (getCurrentUser (getCurrentUser st now).2 now2).1 = none) := by
  have h1 : getCurrentUser st now = (none, signOut st) := by
    unfold getCurrentUser
    rw [hm, hu, ht, he]
    simp [ht2, he2, hlt]
  refine ⟨by rw [h1], by rw [h1], ?_⟩
  intro now2
  rw [h1]
  simp [getCurrentUser, signOut]

/-- C2 witness: the amended behaviour at a concrete expired cold store. -/
theorem getCurrentUser_expired_cold_witness :
    (getCurrentUser expiredColdStore 10).1 = none ∧
    (getCurrentUser (getCurrentUser expiredColdStore 10).2 11).1 = none :=
  ⟨(getCurrentUser_expired_cold expiredColdStore sampleUser "tok" 5 10
      rfl rfl rfl (by decide) rfl (by decide) (by decide)).1,
   (getCurrentUser_expired_cold expiredColdStore sampleUser "tok" 5 10
      rfl rfl rfl (by decide) rfl (by decide) (by decide)).2.2 11⟩

/-! ## C3 — `signUp` followed by `signIn` -/

/-- C3: for a valid email, a password of length at least 6 and a name whose
trim has length at least 2, with no account under that email
(case-insensitively) in the store, `signUp` succeeds and returns a user,
and a subsequent `signIn` with the same email and password succeeds and
returns a user with the same id.  The generated user id `newId` is assumed
fresh among stored credentials, modelling the collision-free random id. -/
theorem signUp_then_signIn (digest : String → String) (st : StoreState)
    (email password nm : String) (now1 now2 : Nat) (newId tok1 tok2 : String)
    (hvalid : isValidEmail email = true)
    (hpw : 6 ≤ password.length)
    (hname : 2 ≤ (jsTrim nm).length)
    (hfresh : ∀ u ∈ st.users, jsToLowerCase u.email ≠ jsToLowerCase email)
    (hid : ∀ c ∈ st.userCredentials, c.userId ≠ newId) :
    ∃ u1 u2 : UserR,
      (signUp digest st email password nm now1 newId tok1).1.user = some u1 ∧
      u1.id = newId ∧
      (signIn digest (signUp digest st email password nm now1 newId tok1).2
          email password now2 tok2).1.user = some u2 ∧
      u2.id = newId ∧
      (signIn digest (signUp digest st email password nm now1 newId tok1).2
          email password now2 tok2).1.error = none := by
  have hex : email ≠ "" := fun h => absurd (h ▸ hvalid) (by decide)
  have hpx : password ≠ "" := by
    intro h
    rw [h] at hpw
    exact absurd hpw (by decide)
  have hnx : nm ≠ "" := by
    intro h
    rw [h] at hname
    exact absurd hname (by decide)
  have hfind : st.users.find? (fun u => jsToLowerCase u.email == jsToLowerCase email) = none := by
    rw [List.find?_eq_none]
    intro u hu
    simp only [beq_iff_eq]
    exact hfresh u hu
  set newUser : UserR :=
    { id := newId, email := jsToLowerCase email, name := jsTrim nm,
      plan := "free", createdAt := now1, updatedAt := now1 } with hnu
  set cred : CredR :=
    { userId := newId, email := jsToLowerCase email,
      passwordHash := hashPassword digest password, createdAt := now1 } with hcr
  have hsu : signUp digest st email password nm now1 newId tok1 =
      ({ user := some newUser, error := none, token := some tok1 },
       { st with
          users := st.users ++ [newUser]
          userCredentials := st.userCredentials ++ [cred]
          memUser := some newUser
          currentUserStored := some newUser
          authToken := some tok1
          tokenExpiry := some (now1 + tokenLifetimeMs) }) := by
    unfold signUp
    rw [if_neg (by simp [hex, hpx, hnx]), if_neg (by simp [hvalid]),
        if_neg (by simp [isValidPassword, hpw]), if_neg (by omega), hfind]
  have hfind2 : (st.users ++ [newUser]).find?
      (fun u => jsToLowerCase u.email == jsToLowerCase email) = some newUser := by
    rw [List.find?_append, hfind, Option.none_or]
    simp [List.find?, jsToLowerCase_idem]
  have hfind3 : (st.userCredentials ++ [cred]).find?
      (fun c => c.userId == newUser.id) = some cred := by
    have h1 : st.userCredentials.find? (fun c => c.userId == newUser.id) = none := by
      rw [List.find?_eq_none]
      intro c hc
      simp only [beq_iff_eq]
      exact hid c hc
    rw [List.find?_append, h1, Option.none_or]
    simp [List.find?]
  have hsi : (signIn digest (signUp digest st email password nm now1 newId tok1).2
      email password now2 tok2).1 =
      { user := some { newUser with updatedAt := now2 }, error := none,
        token := some tok2 } := by
    rw [hsu]
    simp [signIn, hex, hpx, hvalid, hfind2, hfind3]
  refine ⟨newUser, { newUser with updatedAt := now2 }, ?_, rfl, ?_, rfl, ?_⟩
  · rw [hsu]
  · rw [hsi]
  · rw [hsi]

/-- C3 witness: a concrete fresh sign-up and sign-in on the empty store. -/
theorem signUp_then_signIn_witness :
    ∃ u1 u2 : UserR,
      (signUp (fun s => s) emptyStore "ann@mail.com" "secret1" " Ann " 0 "id1" "t1").1.user = some u1 ∧
      u1.id = "id1" ∧
      (signIn (fun s => s)
          (signUp (fun s => s) emptyStore "ann@mail.com" "secret1" " Ann " 0 "id1" "t1").2
          "ann@mail.com" "secret1" 5 "t2").1.user = some u2 ∧
      u2.id = "id1" ∧
      (signIn (fun s => s)
          (signUp (fun s => s) emptyStore "ann@mail.com" "secret1" " Ann " 0 "id1" "t1").2
          "ann@mail.com" "secret1" 5 "t2").1.error = none :=
  signUp_then_signIn (fun s => s) emptyStore "ann@mail.com" "secret1" " Ann "
    0 5 "id1" "t1" "t2" (by decide) (by decide) (by decide)
    (by simp [emptyStore]) (by simp [emptyStore])

/-! ## C4 — `signIn` with a wrong password -/

/-- C4: for a registered email (the user lookup succeeds) with a stored
credential whose hash differs from the salted digest of the supplied
non-empty password, `signIn` fails with the authentication error
`"Invalid email or password"`, returns no user, and leaves the store
untouched. -/
theorem signIn_wrong_password (digest : String → String) (st : StoreState)
    (email password : String) (now : Nat) (token : String)
    (u : UserR) (cred : CredR)
    (hp : password ≠ "")
    (hvalid : isValidEmail email = true)
    (hu : st.users.find? (fun v => jsToLowerCase v.email == jsToLowerCase email) = some u)
    (hc : st.userCredentials.find? (fun c => c.userId == u.id) = some cred)
    (hne : hashPassword digest password ≠ cred.passwordHash) :
    (signIn digest st email password now token).1.user = none ∧
    (signIn digest st email password now token).1.error = some "Invalid email or password" ∧
    (signIn digest st email password now token).2 = st := by
  have hex : email ≠ "" := by
    intro h
    rw [h] at hvalid
    exact absurd hvalid (by decide)
  have hr : signIn digest st email password now token =
      (authFail "Invalid email or password", st) := by
    simp [signIn, hex, hp, hvalid, hu, hc, hne]
  rw [hr]
  exact ⟨rfl, rfl, rfl⟩

def sampleCred : CredR :=
  { userId := "u1", email := "a@b.com",
    passwordHash := "pw123456smarty_salt", createdAt := 0 }

/-- A store holding one registered account (digest modelled by `id`). -/
def registeredStore : StoreState :=
  { emptyStore with users := [sampleUser], userCredentials := [sampleCred] }

/-- C4 witness at a concrete store with the identity digest. -/
theorem signIn_wrong_password_witness :
    (signIn (fun s => s) registeredStore "a@b.com" "wrongpw" 100 "tk").1.user = none ∧
    (signIn (fun s => s) registeredStore "a@b.com" "wrongpw" 100 "tk").1.error =
      some "Invalid email or password" := by
  have h := signIn_wrong_password (fun s => s) registeredStore "a@b.com" "wrongpw"
    100 "tk" sampleUser sampleCred (by decide) (by decide) rfl rfl (by decide)
  exact ⟨h.1, h.2.1⟩

/-! ## C5 — authentication checks on store mutations -/

/-- C5 counterexample.  The claim says every session-requiring mutation,
`log_activity` included, yields `success:false` with
`"User not authenticated"` when dispatched with no session.  Dispatching
`log_activity` with no session actually yields `success:true` (the store
layer silently no-ops instead of throwing). -/
theorem logActivity_dispatch_counterexample :
    handleMessage emptyStore (.logActivity "page_visited" []) 0 (fun _ => "id") =
      ({ success := true, data := none, error := none }, emptyStore) := by
  exact rfl

/-- C5 (amended): with no current session, dispatching `save_summary`,
`save_leads` or `save_price_monitor` yields
`success:false, error:"User not authenticated"`, the check living in the
store layer (`saveContentSummary` itself throws that error, which the
dispatcher only converts); dispatching `log_activity` silently no-ops and
yields `success:true`. -/
theorem unauthenticated_mutations (st : StoreState) (h : st.memUser = none)
    (s : ContentSummaryR) (ls : List StoredLead) (src : String)
    (mo : PriceMonitorR) (a : String) (d : List (String × String))
    (now : Nat) (genId : Nat → String) :
    handleMessage st (.saveSummary s) now genId =
      ({ success := false, data := none, error := some "User not authenticated" }, st) ∧
    handleMessage st (.saveLeadsMsg ls src) now genId =
      ({ success := false, data := none, error := some "User not authenticated" }, st) ∧
    handleMessage st (.savePriceMonitorMsg mo) now genId =
      ({ success := false, data := none, error := some "User not authenticated" }, st) ∧
    saveContentSummary st s now (genId 0) = .error "User not authenticated" ∧
    handleMessage st (.logActivity a d) now genId =
      ({ success := true, data := none, error := none }, st) := by
  refine ⟨?_, ?_, ?_, ?_, ?_⟩ <;>
    simp [handleMessage, saveContentSummary, saveLeadsStore,
      savePriceMonitorStore, logUserActivity, h]

/-- C5 witness at the empty store. -/
theorem unauthenticated_mutations_witness :
    handleMessage emptyStore
        (.saveSummary { id := "", url := "u", title := "t", summary := "s",
                        keyPoints := [], createdAt := 0 }) 3 (fun _ => "id") =
      ({ success := false, data := none, error := some "User not authenticated" },
        emptyStore) :=
  (unauthenticated_mutations emptyStore rfl
    { id := "", url := "u", title := "t", summary := "s", keyPoints := [], createdAt := 0 }
    [] "src" { id := "", url := "", productName := "", currentPrice := 0, alertsEnabled := false }
    "act" [] 3 (fun _ => "id")).1

/-! ## C6 — the 100-entry activity-log cap -/

/-- A finite sequence of `log_activity` calls, each with its action,
details, timestamp and generated id. -/
def applyLogCalls (st : StoreState)
    (calls : List (String × List (String × String) × Nat × String)) : StoreState :=
  calls.foldl (fun s c => logUserActivity s c.1 c.2.1 c.2.2.1 c.2.2.2) st

theorem logUserActivity_length_le (st : StoreState) (a : String)
    (d : List (String × String)) (now : Nat) (newId : String)
    (h : st.userActivities.length ≤ 100) :
    (logUserActivity st a d now newId).userActivities.length ≤ 100 := by
  unfold logUserActivity
  cases st.memUser with
  | none => exact h
  | some u =>
    simp only []
    split
    · simp [List.length_take]
    · simp only [List.length_cons] at *
      omega

/-- C6: starting from at most 100 stored activities, any finite sequence of
`log_activity` calls leaves at most 100; each single call with an active
session prepends the new record and keeps only the first 100 entries. -/
theorem activityLog_bounded (st : StoreState)
    (calls : List (String × List (String × String) × Nat × String))
    (h : st.userActivities.length ≤ 100) :
    (applyLogCalls st calls).userActivities.length ≤ 100 ∧
    (∀ u a d now newId, st.memUser = some u →
      (logUserActivity st a d now newId).userActivities =
        ({ id := newId, userId := u.id, action := a, details := d,
           timestamp := now } :: st.userActivities).take 100) := by
  constructor
  · induction calls generalizing st with
    | nil => exact h
    | cons c rest ih =>
      exact ih _ (logUserActivity_length_le st c.1 c.2.1 c.2.2.1 c.2.2.2 h)
  · intro u a d now newId hm
    unfold logUserActivity
    rw [hm]
    simp only [List.length_cons]
    split
    · rfl
    · rw [List.take_of_length_le]
      simp only [List.length_cons]
      omega

/-- A store with an active session. -/
def sessionStore : StoreState :=
  { emptyStore with users := [sampleUser], memUser := some sampleUser }

/-- C6 witness: two concrete calls on a concrete store with a session. -/
theorem activityLog_bounded_witness :
    (applyLogCalls sessionStore
        [("a1", [], 1, "i1"), ("a2", [], 2, "i2")]).userActivities.length ≤ 100 ∧
    (logUserActivity sessionStore "a1" [] 1 "i1").userActivities =
      [{ id := "i1", userId := "u1", action := "a1", details := [], timestamp := 1 }] :=
  ⟨(activityLog_bounded sessionStore [("a1", [], 1, "i1"), ("a2", [], 2, "i2")]
      (by decide)).1,
   (activityLog_bounded sessionStore [] (by decide)).2 sampleUser "a1" [] 1 "i1" rfl⟩

/-! ## C10 — unauthenticated reads are silently empty -/

/-- C10: with no current session, the informational reads `get_summaries`,
`get_leads`, `get_price_monitors` and `get_user_history` dispatch to a
`success:true` envelope carrying an empty list, not an authentication
error, and leave the store untouched. -/
theorem unauthenticated_reads (st : StoreState) (h : st.memUser = none)
    (lim1 lim2 : Option Nat) (now : Nat) (genId : Nat → String) :
    handleMessage st (.getSummaries lim1) now genId =
      ({ success := true, data := some (.summaries []), error := none }, st) ∧
    handleMessage st (.getLeadsMsg lim2) now genId =
      ({ success := true, data := some (.leadList []), error := none }, st) ∧
    handleMessage st .getPriceMonitorsMsg now genId =
      ({ success := true, data := some (.monitors []), error := none }, st) ∧
    handleMessage st .getUserHistoryMsg now genId =
      ({ success := true, data := some (.activities []), error := none }, st) := by
  refine ⟨?_, ?_, ?_, ?_⟩ <;>
    simp [handleMessage, getUserSummaryHistory, getLeadsStore,
      getPriceMonitorsStore, getUserHistoryStore, h]

/-- C10 witness at the empty store. -/
theorem unauthenticated_reads_witness :
    handleMessage emptyStore (.getSummaries (some 0)) 7 (fun _ => "id") =
      ({ success := true, data := some (.summaries []), error := none }, emptyStore) :=
  (unauthenticated_reads emptyStore rfl (some 0) none 7 (fun _ => "id")).1

/-! ## C7 — classifier rule priority -/

/-- C7: `detectPageType` resolves by the first matching rule in the fixed
order social-media → ecommerce → job-board → article containers → form
element → `general`; an earlier rule matching decides the result no matter
what the later rules would say.  Purity holds by construction:
`detectPageType` is a function of the `Page` record alone. -/
theorem detectPageType_priority (pg : Page) :
    (socialUrlMatch pg = true → detectPageType pg = "social-media") ∧
    (socialUrlMatch pg = false → ecommerceMatch pg = true →
      detectPageType pg = "ecommerce") ∧
    (socialUrlMatch pg = false → ecommerceMatch pg = false →
      jobBoardMatch pg = true → detectPageType pg = "job-board") ∧
    (socialUrlMatch pg = false → ecommerceMatch pg = false →
      jobBoardMatch pg = false → pg.hasArticleContainer = true →
      detectPageType pg = "article") ∧
    (socialUrlMatch pg = false → ecommerceMatch pg = false →
      jobBoardMatch pg = false → pg.hasArticleContainer = false →
      pg.hasFormElement = true → detectPageType pg = "form-page") ∧
    (socialUrlMatch pg = false → ecommerceMatch pg = false →
      jobBoardMatch pg = false → pg.hasArticleContainer = false →
      pg.hasFormElement = false → detectPageType pg = "general") := by
  refine ⟨?_, ?_, ?_, ?_, ?_, ?_⟩
  · intro h1
    simp [detectPageType, h1]
  · intro h1 h2
    simp [detectPageType, h1, h2]
  · intro h1 h2 h3
    simp [detectPageType, h1, h2, h3]
  · intro h1 h2 h3 h4
    simp [detectPageType, h1, h2, h3, h4]
  · intro h1 h2 h3 h4 h5
    simp [detectPageType, h1, h2, h3, h4, h5]
  · intro h1 h2 h3 h4 h5
    simp [detectPageType, h1, h2, h3, h4, h5]

/-- A page matching both the social-media and the ecommerce rule (and with
a form): the first rule must win. -/
def socialShopPage : Page :=
  { url := "https://LinkedIn.com/shop"
    title := "Buy things"
    bodyText := "Add to cart now"
    query := fun _ => none
    hasArticleContainer := false
    hasFormElement := true }

/-- C7 witness: on a page where the social and ecommerce rules (and the
form rule) all match, the earlier social-media rule decides. -/
theorem detectPageType_priority_witness :
    detectPageType socialShopPage = "social-media" :=
  (detectPageType_priority socialShopPage).1 (by decide)

/-! ## C8 — `extractPageContent` -/

/-- C8: `extractPageContent` reports the page title and url, an extraction
timestamp, a word count equal to the number of space-separated tokens of
the content, and a content string of at most 10,000 characters obtained by
whitespace-collapsing and truncating the text of the first matching container —
or the full body text when no selector matches or the match trims to
empty. -/
theorem extractPageContent_spec (pg : Page) (now : Nat) :
    (extractPageContent pg now).content.length ≤ 10000 ∧
    (extractPageContent pg now).title = pg.title ∧
    (extractPageContent pg now).url = pg.url ∧
    (extractPageContent pg now).wordCount =
      ((extractPageContent pg now).content.splitOn " ").length ∧
    (extractPageContent pg now).extractedAt = now ∧
    ((∀ s ∈ contentSelectors, pg.query s = none) →
      (extractPageContent pg now).content = normalizedTruncated pg.bodyText) ∧
    (∀ t, pickedRawContent pg = t → jsTrim t = "" →
      (extractPageContent pg now).content = normalizedTruncated pg.bodyText) ∧
    (∀ t, pickedRawContent pg = t → jsTrim t ≠ "" →
      (extractPageContent pg now).content = normalizedTruncated t) := by
  have hc : (extractPageContent pg now).content = extractedContentString pg := rfl
  have hsl : ∀ s : String, (jsSlice 10000 s).length ≤ 10000 := by
    intro s
    show (s.toList.take 10000).length ≤ 10000
    rw [List.length_take]
    exact Nat.min_le_left _ _
  have hfb : ∀ t, pickedRawContent pg = t → jsTrim t = "" →
      extractedContentString pg = normalizedTruncated pg.bodyText := by
    intro t h1 h2
    unfold extractedContentString
    rw [h1, if_pos h2]
  refine ⟨?_, rfl, rfl, rfl, rfl, ?_, ?_, ?_⟩
  · rw [hc]
    exact hsl _
  · intro h
    have h0 : pickedRawContent pg = "" := by
      unfold pickedRawContent
      rw [List.findSome?_eq_none_iff.mpr h]
      rfl
    rw [hc]
    exact hfb "" h0 rfl
  · intro t h1 h2
    rw [hc]
    exact hfb t h1 h2
  · intro t h1 h2
    rw [hc]
    unfold extractedContentString
    rw [h1, if_neg h2]

/-- A page with no matching content selector. -/
def plainPage : Page :=
  { url := "https://example.org/x"
    title := "T"
    bodyText := "  hello   world "
    query := fun _ => none
    hasArticleContainer := false
    hasFormElement := false }

/-- C8 witness: the body-text fallback at a concrete page. -/
theorem extractPageContent_spec_witness :
    (extractPageContent plainPage 0).content = "hello world" := by
  have h := (extractPageContent_spec plainPage 0).2.2.2.2.2.1
    (fun s _ => rfl)
  rw [h]
  rfl

/-! ## C9 — `extractLeads` deduplication -/

/-- C9: `extractLeads` emits exactly one lead per unique email-regex match
and one per unique phone-regex match of the page text (so a text containing
the same email twice yields exactly one lead with that email), each tagged
with the page URL as source and an unverified flag. -/
theorem emailFilter_emails (url : String) (now : Nat) (s : String) (ms : List String) :
    ((ms.map (mkEmailLead url now)).filter (fun l => l.email == some s)).length =
      ms.count s := by
  induction ms with
  | nil => rfl
  | cons x rest ih =>
    simp only [List.map_cons, List.filter_cons, List.count_cons, mkEmailLead]
    by_cases hxs : x = s
    · subst hxs
      simp [ih]
    · simp [hxs, ih]

theorem emailFilter_phones (url : String) (now : Nat) (s : String) (ps : List String) :
    ((ps.map (mkPhoneLead url now)).filter (fun l => l.email == some s)) = [] := by
  induction ps with
  | nil => rfl
  | cons x rest ih =>
    simp only [List.map_cons, List.filter_cons, mkPhoneLead]
    simpa using ih

theorem phoneFilter_emails (url : String) (now : Nat) (s : String) (ms : List String) :
    ((ms.map (mkEmailLead url now)).filter (fun l => l.phone == some s)) = [] := by
  induction ms with
  | nil => rfl
  | cons x rest ih =>
    simp only [List.map_cons, List.filter_cons, mkEmailLead]
    simpa using ih

theorem phoneFilter_phones (url : String) (now : Nat) (s : String) (ps : List String) :
    ((ps.map (mkPhoneLead url now)).filter (fun l => l.phone == some s)).length =
      ps.count s := by
  induction ps with
  | nil => rfl
  | cons x rest ih =>
    simp only [List.map_cons, List.filter_cons, List.count_cons, mkPhoneLead]
    by_cases hxs : x = s
    · subst hxs
      simp [ih]
    · simp [hxs, ih]

theorem extractLeads_dedup (pg : Page) (now : Nat) (s : String) :
    ((extractLeads pg now).filter (fun l => l.email == some s)).length =
      (if s ∈ jsMatchAll emailLeadPattern pg.bodyText then 1 else 0) ∧
    ((extractLeads pg now).filter (fun l => l.phone == some s)).length =
      (if s ∈ jsMatchAll phoneLeadPattern pg.bodyText then 1 else 0) ∧
    (extractLeads pg now).all
      (fun l => l.source == pg.url && l.verified == false) = true := by
  unfold extractLeads
  refine ⟨?_, ?_, ?_⟩
  · rw [List.filter_append, List.length_append, emailFilter_phones,
      emailFilter_emails, jsSetDedup_count]
    simp
  · rw [List.filter_append, List.length_append, phoneFilter_emails,
      phoneFilter_phones, jsSetDedup_count]
    simp
  · rw [List.all_append]
    simp [List.all_map, Function.comp_def, mkEmailLead, mkPhoneLead]

end Smarty
